import Mathlib

/-!
Verification of the stealth-testing suite (`stealth_tester.py`).

The Python source is shallowly embedded: every probe of the catalogue, the
target resolver, the scorer and the persisted-report builder are translated
into executable Lean definitions.  Platform calls (psutil, win32, subprocess,
mss) are modelled as explicit inputs in an `Env` record; a call that may raise
one of the exceptions the code catches is an `Except` value.  Python floats
are modelled as rationals; `f-string` formatting with one decimal digit is
modelled by `fmt1`.
-/

namespace StealthTester

/-! ## Python string primitives -/

/-- Python `str.lower()` on a string (character-wise `Char.toLower`). -/
def lowerStr (s : String) : String := ⟨s.data.map Char.toLower⟩

/-- Python `str.strip()`: remove leading and trailing whitespace. -/
def strip (s : String) : String :=
  ⟨((s.data.dropWhile Char.isWhitespace).reverse.dropWhile Char.isWhitespace).reverse⟩

/-- Helper for `containsSub`: does `pat` occur in the character list? -/
def containsSubAux (pat : List Char) : List Char → Bool
  | [] => pat.isEmpty
  | c :: rest => pat.isPrefixOf (c :: rest) || containsSubAux pat rest

/-- Python `pat in hay` on strings: substring containment. -/
def containsSub (hay pat : String) : Bool := containsSubAux pat.data hay.data

/-- Helper for `countOccs`, with fuel bounding the recursion. -/
def countOccsAux : Nat → List Char → List Char → Nat
  | 0, _, _ => 0
  | fuel + 1, pat, s =>
    match s with
    | [] => 0
    | c :: rest =>
      if pat ≠ [] ∧ pat.isPrefixOf (c :: rest) then
        countOccsAux fuel pat ((c :: rest).drop pat.length) + 1
      else
        countOccsAux fuel pat rest

/-- Python `hay.count(pat)`: non-overlapping occurrence count. -/
def countOccs (hay pat : String) : Nat := countOccsAux hay.data.length pat.data hay.data

/-- Helper for `splitLines`. -/
def splitNlAux : List Char → List Char → List (List Char)
  | [], acc => [acc.reverse]
  | c :: rest, acc =>
    if c = '\n' then acc.reverse :: splitNlAux rest [] else splitNlAux rest (c :: acc)

/-- Python `s.split('\n')`. -/
def splitLines (s : String) : List String := (splitNlAux s.data []).map fun l => ⟨l⟩

/-- Items of the Python `repr` of a list of strings, e.g. `a, b` quoted. -/
def pyReprItems : List String → String
  | [] => ""
  | [s] => "\x27" ++ s ++ "\x27"
  | s :: rest => "\x27" ++ s ++ "\x27, " ++ pyReprItems rest

/-- Python `str(list_of_strings)`, as interpolated into an f-string. -/
def pyStrList (l : List String) : String := "[" ++ pyReprItems l ++ "]"

/-- Python `f"{x:.1f}"` for a non-negative rational: round to one decimal
digit (half away from zero) and print `intpart.digit`. -/
def fmt1 (q : ℚ) : String :=
  let m : Nat := (((q.num * 20 + (q.den : Int)) / (2 * (q.den : Int)))).toNat
  toString (m / 10) ++ "." ++ toString (m % 10)

/-! ## Data model (`TestResult`, severities, configuration) -/

/-- The severity strings used by the suite (`'low'`, `'medium'`, `'high'`,
`'critical'`); every `add_result` call site passes one of these four. -/
inductive Severity
  | low
  | medium
  | high
  | critical
deriving DecidableEq, Repr

/-- The `TestResult` dataclass. -/
structure TestResult where
  test : String
  passed : Bool
  details : String
  severity : Severity
  timestamp : String
deriving DecidableEq, Repr

/-- The constructor state: `__init__` lowercases both filters. -/
structure Config where
  process_name : String
  window_title : String
deriving DecidableEq, Repr

/-- `StealthTester.__init__`: both filters are lowercased on entry. -/
def initConfig (process_name window_title : String) : Config :=
  ⟨lowerStr process_name, lowerStr window_title⟩

/-! ## Platform environment

The psutil / win32 / subprocess / mss calls a run performs are modelled as an
`Env` record.  `PsErr` is the pair of psutil exceptions the code catches
per-process (`NoSuchProcess`, `AccessDenied`); a per-call outcome that may
raise one of them is an `Except PsErr` value. -/

/-- The psutil exceptions caught per-process by the suite. -/
inductive PsErr
  | noSuchProcess
  | accessDenied
deriving DecidableEq, Repr

/-- One entry of a `proc.connections()` list: the optional remote address
(`raddr`) as an (ip, port) pair. -/
structure Conn where
  raddr : Option (String × Nat)
deriving DecidableEq, Repr

/-- One process as seen through psutil / win32: each field is the outcome of
the corresponding platform call (`cpuPercent i` is the `cpu_percent()` call in
sampling iteration `i`; the three win32 booleans tell whether
`OpenProcess(VM_WRITE|VM_OPERATION)`, `OpenProcess(PROCESS_ALL_ACCESS)` and
`DebugActiveProcess` succeed). -/
structure Proc where
  pid : Nat
  iterName : Except PsErr String
  name : Except PsErr String
  parent : Except PsErr (Option String)
  connections : Except PsErr (List Conn)
  rss : Except PsErr ℚ
  cpuPercent : Nat → Except PsErr ℚ
  openVmWrite : Bool
  openAllAccess : Bool
  debugAttach : Bool

/-- One top-level window as seen by `EnumWindows`: visibility and title at
enumeration time, and whether the enumeration callback raises on it. -/
structure Win where
  hwnd : Nat
  visible : Bool
  title : String
  raises : Bool
deriving DecidableEq, Repr

/-- A `subprocess.run` outcome (when it does not raise). -/
structure CmdResult where
  returncode : Int
  stdout : String
deriving DecidableEq, Repr

/-- The observable outcome of the mss screenshot attempt: whether the written
file exists and its size in bytes. -/
structure Capture where
  fileExists : Bool
  fileSize : Nat
deriving DecidableEq, Repr

/-- All platform inputs of one run.  `getWindowLongEx`/`getWindowLongStyle`
are the `GetWindowLong` calls on `GWL_EXSTYLE`/`GWL_STYLE`;
`isWindowVisible` is the `IsWindowVisible` re-query of the Alt-Tab probe;
`now i` is the timestamp of the `i`-th `add_result` call of the run. -/
structure Env where
  procIter : List Proc
  windows : List Win
  tasklist : Except String CmdResult
  wmic : Except String CmdResult
  powershell : Except String CmdResult
  capture : Except String Capture
  getWindowLongEx : Nat → Except Unit Nat
  getWindowLongStyle : Nat → Except Unit Nat
  isWindowVisible : Nat → Except Unit Bool
  now : Nat → String

/-- `WS_EX_TOOLWINDOW` extended window style bit. -/
def WS_EX_TOOLWINDOW : Nat := 0x00000080

/-- `WS_VISIBLE` window style bit. -/
def WS_VISIBLE : Nat := 0x10000000

/-! ## Run state and target resolver -/

/-- The mutable per-run state of the tester object: the result list and the
two target lists (all empty after `__init__`). -/
structure RunState where
  target_processes : List Proc
  target_windows : List (Nat × String)
  results : List TestResult

/-- The state right after `__init__`. -/
def initState : RunState := ⟨[], [], []⟩

/-- `add_result`: append one `TestResult` to the run's result list. -/
def addResult (st : RunState) (r : TestResult) : RunState :=
  { st with results := st.results ++ [r] }

/-- `find_target_processes`: keep every process of `psutil.process_iter`
whose name (lowercased) contains the target substring; a per-process
`NoSuchProcess`/`AccessDenied` is skipped. -/
def find_target_processes (procIter : List Proc) (process_name : String) : List Proc :=
  procIter.filter fun p =>
    match p.iterName with
    | .ok n => containsSub (lowerStr n) process_name
    | .error _ => false

/-- `find_target_windows`: the `EnumWindows` callback keeps a window when it
is visible, its title is truthy (non-empty), and the title filter is empty or
occurs (lowercased) in the title; an exception inside the callback skips the
window. -/
def find_target_windows (wins : List Win) (window_title : String) : List (Nat × String) :=
  wins.filterMap fun w =>
    if w.raises then none
    else if w.visible && (w.title ≠ "" && (window_title = "" || containsSub (lowerStr w.title) window_title)) then
      some (w.hwnd, w.title)
    else none

/-! ## Probe catalogue

Each probe produces exactly one `TestResult` (`ts` is the timestamp of its
`add_result` call).  `test_psutil_detection` and `test_window_enumeration`
additionally assign the corresponding target list, so they are state
transformers; every other probe only reads its inputs. -/

/-- `test_psutil_detection`: resolve the target processes; a non-empty match
fails at high severity and is stored in `target_processes`. -/
def test_psutil_detection (cfg : Config) (st : RunState) (env : Env) (ts : String) : RunState :=
  let processes := find_target_processes env.procIter cfg.process_name
  if processes.isEmpty then
    addResult st ⟨"PSUtil Process Detection", true, "No processes detected by psutil", .low, ts⟩
  else
    let names := pyStrList (processes.map fun p => p.iterName.toOption.getD "")
    let details := "Found " ++ toString processes.length ++ " processes: " ++ names
    { addResult st ⟨"PSUtil Process Detection", false, details, .high, ts⟩ with
      target_processes := processes }

/-- `test_tasklist_detection`: run `tasklist /fo csv`; substring hit in the
lowercased output fails at high severity, a non-zero exit or an exception is
a passing medium-severity result. -/
def test_tasklist_detection (cfg : Config) (cmd : Except String CmdResult) (ts : String) : TestResult :=
  match cmd with
  | .error e => ⟨"TaskList Detection", true, "TaskList test failed: " ++ e, .medium, ts⟩
  | .ok r =>
    if r.returncode = 0 then
      let output := lowerStr r.stdout
      if containsSub output cfg.process_name then
        let count := countOccs output cfg.process_name
        ⟨"TaskList Detection", false,
          "Process detected " ++ toString count ++ " times in tasklist", .high, ts⟩
      else
        ⟨"TaskList Detection", true, "Process hidden from tasklist", .low, ts⟩
    else
      ⟨"TaskList Detection", true, "TaskList command failed (access restricted?)", .medium, ts⟩

/-- `test_wmic_detection`: substring hit in the WMIC output fails at critical
severity; a non-zero exit or an exception is a passing medium result. -/
def test_wmic_detection (cfg : Config) (cmd : Except String CmdResult) (ts : String) : TestResult :=
  match cmd with
  | .error e => ⟨"WMIC Detection", true, "WMIC test failed: " ++ e, .medium, ts⟩
  | .ok r =>
    if r.returncode = 0 then
      if containsSub (lowerStr r.stdout) cfg.process_name then
        ⟨"WMIC Detection", false, "Process detected by WMIC queries", .critical, ts⟩
      else
        ⟨"WMIC Detection", true, "Process hidden from WMIC", .low, ts⟩
    else
      ⟨"WMIC Detection", true, "WMIC access blocked or failed", .medium, ts⟩

/-- `test_powershell_detection`: detected when the stripped output has more
than two non-blank lines and contains the target substring. -/
def test_powershell_detection (cfg : Config) (cmd : Except String CmdResult) (ts : String) : TestResult :=
  match cmd with
  | .error e => ⟨"PowerShell Detection", true, "PowerShell test failed: " ++ e, .medium, ts⟩
  | .ok r =>
    if r.returncode = 0 then
      let output := strip r.stdout
      let lines := (splitLines output).filter fun l => strip l ≠ ""
      if lines.length > 2 ∧ containsSub (lowerStr output) cfg.process_name then
        ⟨"PowerShell Detection", false,
          "Process detected by Get-Process: " ++ toString (lines.length - 2) ++ " instances",
          .high, ts⟩
      else
        ⟨"PowerShell Detection", true, "Process hidden from PowerShell Get-Process", .low, ts⟩
    else
      ⟨"PowerShell Detection", true, "PowerShell execution blocked", .medium, ts⟩

/-- `test_window_enumeration`: resolve the target windows; a non-empty match
fails at critical severity (detail shows the first three) and is stored in
`target_windows`. -/
def test_window_enumeration (cfg : Config) (st : RunState) (env : Env) (ts : String) : RunState :=
  let windows := find_target_windows env.windows cfg.window_title
  if windows.isEmpty then
    addResult st ⟨"Win32 Window Enumeration", true, "No windows detected by EnumWindows", .low, ts⟩
  else
    let window_details :=
      pyStrList ((windows.take 3).map fun hw =>
        "HWND:" ++ toString hw.1 ++ " \x27" ++ hw.2 ++ "\x27")
    { addResult st ⟨"Win32 Window Enumeration", false,
        "Found " ++ toString windows.length ++ " windows: " ++ window_details, .critical, ts⟩ with
      target_windows := windows }

/-- `test_taskbar_presence`: a stored window counts when it lacks
`WS_EX_TOOLWINDOW` and has `WS_VISIBLE` (a `GetWindowLong` exception skips
the window); any counted window fails the probe at medium severity. -/
def test_taskbar_presence (target_windows : List (Nat × String)) (env : Env) (ts : String) : TestResult :=
  if target_windows.isEmpty then
    ⟨"Taskbar Presence", true, "No windows to test taskbar presence", .low, ts⟩
  else
    let taskbar_windows :=
      (target_windows.filter fun hw =>
        match env.getWindowLongEx hw.1, env.getWindowLongStyle hw.1 with
        | .ok ex_style, .ok style =>
          (ex_style &&& WS_EX_TOOLWINDOW == 0) && (style &&& WS_VISIBLE != 0)
        | _, _ => false).length
    if taskbar_windows > 0 then
      ⟨"Taskbar Presence", false,
        toString taskbar_windows ++ " windows likely visible in taskbar", .medium, ts⟩
    else
      ⟨"Taskbar Presence", true, "Windows hidden from taskbar", .low, ts⟩

/-- `test_alt_tab_visibility`: a stored window counts when `IsWindowVisible`
holds, it lacks `WS_EX_TOOLWINDOW`, and its stored title strips to non-empty
(an exception skips the window); any counted window fails at medium. -/
def test_alt_tab_visibility (target_windows : List (Nat × String)) (env : Env) (ts : String) : TestResult :=
  if target_windows.isEmpty then
    ⟨"Alt+Tab Visibility", true, "No windows to test Alt+Tab visibility", .low, ts⟩
  else
    let alt_tab_visible :=
      (target_windows.filter fun hw =>
        match env.isWindowVisible hw.1 with
        | .error _ => false
        | .ok vis =>
          if vis then
            match env.getWindowLongEx hw.1 with
            | .error _ => false
            | .ok ex_style => (ex_style &&& WS_EX_TOOLWINDOW == 0) && strip hw.2 ≠ ""
          else false).length
    if alt_tab_visible > 0 then
      ⟨"Alt+Tab Visibility", false,
        toString alt_tab_visible ++ " windows likely visible in Alt+Tab", .medium, ts⟩
    else
      ⟨"Alt+Tab Visibility", true, "Windows hidden from Alt+Tab", .low, ts⟩

/-- `test_process_tree`: a stored process is suspicious when its parent
exists and the lowercased parent name is outside the allow-list
(a psutil exception skips the process); any suspicious entry fails at
medium. -/
def test_process_tree (target_processes : List Proc) (ts : String) : TestResult :=
  if target_processes.isEmpty then
    ⟨"Process Tree Analysis", true, "No processes to analyze", .low, ts⟩
  else
    let legitimate_parents := ["explorer.exe", "services.exe", "winlogon.exe", "dwm.exe"]
    let suspicious_parents :=
      target_processes.filterMap fun p =>
        match p.parent with
        | .error _ => none
        | .ok none => none
        | .ok (some parentName) =>
          let parent_name := lowerStr parentName
          if legitimate_parents.contains parent_name then none
          else
            match p.name with
            | .error _ => none
            | .ok n => some (n ++ "→" ++ parent_name)
    if suspicious_parents.isEmpty then
      ⟨"Process Tree Analysis", true, "Process tree appears legitimate", .low, ts⟩
    else
      ⟨"Process Tree Analysis", false,
        "Suspicious parent processes: " ++ pyStrList suspicious_parents, .medium, ts⟩

/-- `test_network_connections`: fold over the stored processes accumulating
the total connection count and the non-loopback remote addresses (a psutil
exception skips the process); any external connection fails at medium. -/
def networkStep (acc : Nat × List String) (p : Proc) : Nat × List String :=
  match p.connections with
  | .error _ => acc
  | .ok conns =>
    let total := acc.1 + conns.length
    let sus := acc.2 ++ conns.filterMap fun c =>
      match c.raddr with
      | none => none
      | some ipPort =>
        if ipPort.1 == "127.0.0.1" || ipPort.1 == "::1" then none
        else some (ipPort.1 ++ ":" ++ toString ipPort.2)
    (total, sus)

/-- The `test_network_connections` probe. -/
def test_network_connections (target_processes : List Proc) (ts : String) : TestResult :=
  if target_processes.isEmpty then
    ⟨"Network Connections", true, "No processes to test network connections", .low, ts⟩
  else
    let acc := target_processes.foldl networkStep (0, [])
    if acc.2.isEmpty then
      if acc.1 > 0 then
        ⟨"Network Connections", true,
          "Only localhost connections detected (" ++ toString acc.1 ++ ")", .low, ts⟩
      else
        ⟨"Network Connections", true, "No network connections detected", .low, ts⟩
    else
      ⟨"Network Connections", false,
        "External connections detected: " ++ pyStrList (acc.2.take 3), .medium, ts⟩

/-- `test_memory_usage` accumulator: add the resident size in MB to the
running total and flag the process when it exceeds 500 MB (a psutil
exception on `memory_info` skips the process; one on `name` skips only the
flagging, after the total was already updated). -/
def memStep (acc : ℚ × List String) (p : Proc) : ℚ × List String :=
  match p.rss with
  | .error _ => acc
  | .ok rss =>
    let memory_mb := rss / 1024 / 1024
    let total := acc.1 + memory_mb
    if 500 < memory_mb then
      match p.name with
      | .error _ => (total, acc.2)
      | .ok n => (total, acc.2 ++ [n ++ ": " ++ fmt1 memory_mb ++ "MB"])
    else (total, acc.2)

/-- The `test_memory_usage` probe: any flagged process fails at medium. -/
def test_memory_usage (target_processes : List Proc) (ts : String) : TestResult :=
  if target_processes.isEmpty then
    ⟨"Memory Usage", true, "No processes to test memory usage", .low, ts⟩
  else
    let acc := target_processes.foldl memStep (0, [])
    if acc.2.isEmpty then
      ⟨"Memory Usage", true, "Normal memory usage: " ++ fmt1 acc.1 ++ "MB total", .low, ts⟩
    else
      ⟨"Memory Usage", false,
        "High memory usage detected: " ++ pyStrList acc.2, .medium, ts⟩

/-- Python `max` over a non-empty list (first element seeds the fold). -/
def pyMax : List ℚ → ℚ
  | [] => 0
  | c :: rest => rest.foldl max c

/-- Verdict of the CPU probe on the collected sample list: max sample above
50 fails at medium; both branches report average and maximum with one
decimal digit. -/
def cpuVerdict (cpu_samples : List ℚ) (ts : String) : TestResult :=
  if cpu_samples.isEmpty then
    ⟨"CPU Usage", true, "No CPU usage data available", .low, ts⟩
  else
    let avg_cpu := cpu_samples.sum / cpu_samples.length
    let max_cpu := pyMax cpu_samples
    if max_cpu > 50 then
      ⟨"CPU Usage", false,
        "High CPU usage detected: avg=" ++ fmt1 avg_cpu ++ "%, max=" ++ fmt1 max_cpu ++ "%",
        .medium, ts⟩
    else
      ⟨"CPU Usage", true,
        "Normal CPU usage: avg=" ++ fmt1 avg_cpu ++ "%, max=" ++ fmt1 max_cpu ++ "%",
        .low, ts⟩

/-- One sampling iteration of the CPU probe: sum the `cpu_percent()` values
of the still-accessible processes; record the per-process average when at
least one process was accessible. -/
def cpuSampleAt (target_processes : List Proc) (i : Nat) : Option ℚ :=
  let acc := target_processes.foldl
    (fun (acc : ℚ × Nat) p =>
      match p.cpuPercent i with
      | .error _ => acc
      | .ok cpu_percent => (acc.1 + cpu_percent, acc.2 + 1))
    (0, 0)
  if acc.2 > 0 then some (acc.1 / acc.2) else none

/-- The `test_cpu_usage` probe: 5 sampling iterations, then the verdict on
the collected samples. -/
def test_cpu_usage (target_processes : List Proc) (ts : String) : TestResult :=
  if target_processes.isEmpty then
    ⟨"CPU Usage", true, "No processes to test CPU usage", .low, ts⟩
  else
    let cpu_samples := (List.range 5).filterMap (cpuSampleAt target_processes)
    cpuVerdict cpu_samples ts

/-- `test_screen_capture_protection`: a successful capture whose written file
exceeds 1000 bytes fails at critical severity; a small or missing file
passes; an exception anywhere is converted to a passing low-severity result
carrying the error text. -/
def test_screen_capture_protection (capture : Except String Capture) (ts : String) : TestResult :=
  match capture with
  | .error e =>
    ⟨"Screen Capture Protection", true,
      "Screenshot failed: " ++ e ++ " (DRM protection likely working)", .low, ts⟩
  | .ok cap =>
    if cap.fileExists then
      if cap.fileSize > 1000 then
        ⟨"Screen Capture Protection", false,
          "Screenshot successful (" ++ toString cap.fileSize ++ " bytes) - DRM protection may be bypassed",
          .critical, ts⟩
      else
        ⟨"Screen Capture Protection", true,
          "Screenshot blocked or corrupted - DRM protection working", .low, ts⟩
    else
      ⟨"Screen Capture Protection", true, "Screenshot completely blocked", .low, ts⟩

/-- `test_process_injection_resistance`: every stored process is attempted;
an open with `PROCESS_VM_WRITE | PROCESS_VM_OPERATION` that yields a handle
counts as a successful injection, which fails the probe at high severity. -/
def test_process_injection_resistance (target_processes : List Proc) (ts : String) : TestResult :=
  if target_processes.isEmpty then
    ⟨"Process Injection Resistance", true, "No processes to test injection resistance", .low, ts⟩
  else
    let injection_attempts := target_processes.length
    let successful_injections := (target_processes.filter fun p => p.openVmWrite).length
    if successful_injections > 0 then
      ⟨"Process Injection Resistance", false,
        toString successful_injections ++ "/" ++ toString injection_attempts ++
          " processes vulnerable to injection", .high, ts⟩
    else
      ⟨"Process Injection Resistance", true,
        "All " ++ toString injection_attempts ++ " processes protected from injection", .low, ts⟩

/-- `test_debugging_protection`: a process counts when the
`PROCESS_ALL_ACCESS` open yields a handle and `DebugActiveProcess` then
succeeds; any such process fails the probe at critical severity. -/
def test_debugging_protection (target_processes : List Proc) (ts : String) : TestResult :=
  if target_processes.isEmpty then
    ⟨"Anti-Debugging Protection", true, "No processes to test debugging protection", .low, ts⟩
  else
    let debug_attempts := target_processes.length
    let successful_debugs := (target_processes.filter fun p => p.openAllAccess && p.debugAttach).length
    if successful_debugs > 0 then
      ⟨"Anti-Debugging Protection", false,
        toString successful_debugs ++ "/" ++ toString debug_attempts ++
          " processes vulnerable to debugging", .critical, ts⟩
    else
      ⟨"Anti-Debugging Protection", true,
        "All " ++ toString debug_attempts ++ " processes protected from debugging", .low, ts⟩

/-- `test_process_name_legitimacy`: a stored process is suspicious when its
lowercased name contains none of the legitimate-sounding keywords (a psutil
exception skips the process); any suspicious name fails at medium. -/
def test_process_name_legitimacy (target_processes : List Proc) (ts : String) : TestResult :=
  if target_processes.isEmpty then
    ⟨"Process Name Legitimacy", true, "No processes to test name legitimacy", .low, ts⟩
  else
    let legitimate_patterns :=
      ["windows", "system", "service", "update", "security",
       "network", "audio", "display", "manager", "configuration"]
    let suspicious_names :=
      target_processes.filterMap fun p =>
        match p.name with
        | .error _ => none
        | .ok n0 =>
          let n := lowerStr n0
          if legitimate_patterns.any (fun pat => containsSub n pat) then none
          else some n
    if suspicious_names.isEmpty then
      ⟨"Process Name Legitimacy", true, "Process names appear legitimate", .low, ts⟩
    else
      ⟨"Process Name Legitimacy", false,
        "Suspicious process names: " ++ pyStrList suspicious_names, .medium, ts⟩

/-! ## The run -/

/-- `run_all_tests`: the fifteen probes in catalogue order, threading the
run state; `env.now i` is the timestamp of the `i`-th result. -/
def run_all_tests (cfg : Config) (env : Env) : RunState :=
  let s1 := test_psutil_detection cfg initState env (env.now 0)
  let s2 := addResult s1 (test_tasklist_detection cfg env.tasklist (env.now 1))
  let s3 := addResult s2 (test_wmic_detection cfg env.wmic (env.now 2))
  let s4 := addResult s3 (test_powershell_detection cfg env.powershell (env.now 3))
  let s5 := test_window_enumeration cfg s4 env (env.now 4)
  let s6 := addResult s5 (test_taskbar_presence s5.target_windows env (env.now 5))
  let s7 := addResult s6 (test_alt_tab_visibility s6.target_windows env (env.now 6))
  let s8 := addResult s7 (test_process_tree s7.target_processes (env.now 7))
  let s9 := addResult s8 (test_network_connections s8.target_processes (env.now 8))
  let s10 := addResult s9 (test_memory_usage s9.target_processes (env.now 9))
  let s11 := addResult s10 (test_cpu_usage s10.target_processes (env.now 10))
  let s12 := addResult s11 (test_screen_capture_protection env.capture (env.now 11))
  let s13 := addResult s12 (test_process_injection_resistance s12.target_processes (env.now 12))
  let s14 := addResult s13 (test_debugging_protection s13.target_processes (env.now 13))
  addResult s14 (test_process_name_legitimacy s14.target_processes (env.now 14))

/-! ## Scorer and report renderer -/

/-- `len([r for r in self.results if r.passed])`. -/
def passedCount (results : List TestResult) : Nat :=
  (results.filter fun r => r.passed).length

/-- Failing results of one severity, as both report functions count them. -/
def failsOf (results : List TestResult) (sev : Severity) : List TestResult :=
  results.filter fun r => !r.passed && r.severity == sev

/-- The console score of `generate_report`:
`(passed_tests / total_tests * 100) if total_tests > 0 else 0`. -/
def reportScore (results : List TestResult) : ℚ :=
  if results.length > 0 then (passedCount results : ℚ) / results.length * 100 else 0

/-- The recommendation tiers of `generate_report`. -/
inductive Tier
  | immediateAction
  | needsImprovement
  | excellent
deriving DecidableEq, Repr

/-- The recommendation branch of `generate_report`:
`if score < 70 ... elif score < 85 ... else ...`. -/
def recommendation (score : ℚ) : Tier :=
  if score < 70 then .immediateAction
  else if score < 85 then .needsImprovement
  else .excellent

/-- The `summary` object of the persisted report. -/
structure SavedSummary where
  critical_issues : Nat
  high_issues : Nat
  medium_issues : Nat
  low_issues : Nat
deriving DecidableEq, Repr

/-- The `report_data` document of `save_detailed_report`: exactly the fields
the Python dict carries, in its nesting. -/
structure SavedReport where
  timestamp : String
  target_process : String
  target_window : String
  platform : String
  total_tests : Nat
  passed_tests : Nat
  score_percentage : ℚ
  test_results : List TestResult
  summary : SavedSummary
deriving Repr

/-- The persisted score:
`(len([r for r in self.results if r.passed]) / len(self.results) * 100) if self.results else 0`. -/
def score_percentage (results : List TestResult) : ℚ :=
  if results.isEmpty then 0
  else ((results.filter fun r => r.passed).length : ℚ) / results.length * 100

/-- `save_detailed_report`: build the persisted report document from the run
metadata and the result list. -/
def save_detailed_report (ts : String) (cfg : Config) (plat : String)
    (results : List TestResult) : SavedReport :=
  { timestamp := ts
    target_process := cfg.process_name
    target_window := cfg.window_title
    platform := plat
    total_tests := results.length
    passed_tests := (results.filter fun r => r.passed).length
    score_percentage := score_percentage results
    test_results := results
    summary :=
      { critical_issues := (failsOf results .critical).length
        high_issues := (failsOf results .high).length
        medium_issues := (failsOf results .medium).length
        low_issues := (failsOf results .low).length } }

/-! ## Helper notions and lemmas -/

/-- `needle` occurs verbatim inside `hay` (substring containment, stated on
the underlying character lists). -/
def strMentions (needle hay : String) : Prop :=
  ∃ l1 l2, hay.data = l1 ++ needle.data ++ l2

theorem strMentions_append (a needle b : String) : strMentions needle (a ++ needle ++ b) :=
  ⟨a.data, b.data, by simp [String.data_append]⟩

theorem mem_pyReprItems {s : String} {l : List String} (h : s ∈ l) :
    ∃ l1 l2, (pyReprItems l).data = l1 ++ s.data ++ l2 := by
  induction l with
  | nil => cases h
  | cons x rest ih =>
    rcases List.mem_cons.mp h with rfl | hmem
    · rcases rest with _ | ⟨y, t⟩
      · exact ⟨['\x27'], ['\x27'], by simp [pyReprItems, String.data_append]⟩
      · exact ⟨['\x27'], ("\x27, " ++ pyReprItems (y :: t)).data,
          by simp [pyReprItems, String.data_append]⟩
    · rcases rest with _ | ⟨y, t⟩
      · cases hmem
      · obtain ⟨l1, l2, heq⟩ := ih hmem
        refine ⟨("\x27" ++ x ++ "\x27, ").data ++ l1, l2, ?_⟩
        simp [pyReprItems, String.data_append, heq]

theorem strMentions_pyStrList {s : String} {l : List String} (pre : String) (h : s ∈ l) :
    strMentions s (pre ++ pyStrList l) := by
  obtain ⟨l1, l2, heq⟩ := mem_pyReprItems h
  exact ⟨pre.data ++ "[".data ++ l1, l2 ++ "]".data,
    by simp [pyStrList, String.data_append, heq]⟩

theorem length_filter_passed_add_not (results : List TestResult) :
    (results.filter fun r => r.passed).length +
      (results.filter fun r => !r.passed).length = results.length := by
  induction results with
  | nil => rfl
  | cons r rs ih => cases hr : r.passed <;> simp [List.filter_cons, hr] <;> omega

theorem severity_partition (results : List TestResult) :
    (failsOf results .critical).length + (failsOf results .high).length +
      (failsOf results .medium).length + (failsOf results .low).length =
      (results.filter fun r => !r.passed).length := by
  induction results with
  | nil => rfl
  | cons r rs ih =>
    cases hr : r.passed
    · cases hs : r.severity <;>
        simp [failsOf, List.filter_cons, hr, hs] at ih ⊢ <;> omega
    · simp [failsOf, List.filter_cons, hr] at ih ⊢ <;> omega

/-! ## Claim C1: the aggregate score -/

/-- C1.  For every sequence of test results, the console score of
`generate_report` and the persisted `score_percentage` agree, both equal
`passedCount / totalCount * 100` (0 when the sequence is empty), and the
score always lies between 0 and 100. -/
theorem C1_score_correct (results : List TestResult) :
    score_percentage results = reportScore results ∧
    reportScore results =
      (if results.length = 0 then 0 else (passedCount results : ℚ) / results.length * 100) ∧
    0 ≤ reportScore results ∧ reportScore results ≤ 100 := by
  have hagree : score_percentage results = reportScore results := by
    rcases results with _ | ⟨r, rs⟩ <;>
      simp [score_percentage, reportScore, passedCount]
  have hform : reportScore results =
      (if results.length = 0 then 0 else (passedCount results : ℚ) / results.length * 100) := by
    rcases Nat.eq_zero_or_pos results.length with h | h
    · simp [reportScore, h]
    · simp [reportScore, h, Nat.pos_iff_ne_zero.mp h]
  refine ⟨hagree, hform, ?_, ?_⟩
  · rcases Nat.eq_zero_or_pos results.length with h | h
    · simp [reportScore, h]
    · rw [reportScore, if_pos h]
      have ht : (0:ℚ) ≤ results.length := by positivity
      have hp : (0:ℚ) ≤ passedCount results := by positivity
      positivity
  · rcases Nat.eq_zero_or_pos results.length with h | h
    · simp [reportScore, h]
    · rw [reportScore, if_pos h]
      have hp : (passedCount results : ℚ) ≤ results.length := by
        exact_mod_cast List.length_filter_le _ results
      have ht : (0:ℚ) ≤ results.length := by positivity
      have hdiv : (passedCount results : ℚ) / results.length ≤ 1 :=
        div_le_one_of_le₀ hp ht
      calc (passedCount results : ℚ) / results.length * 100
          ≤ 1 * 100 := by
            exact mul_le_mul_of_nonneg_right hdiv (by norm_num)
        _ = 100 := by norm_num

/-! ## Claim C9: recommendation tiers -/

/-- C9.  The recommendation branch of `generate_report` selects exactly one
tier by the fixed thresholds: below 70 the immediate-action tier, in
[70, 85) the needs-improvement tier, and at or above 85 the excellent
tier. -/
theorem C9_recommendation_tiers (score : ℚ) :
    (recommendation score = .immediateAction ↔ score < 70) ∧
    (recommendation score = .needsImprovement ↔ 70 ≤ score ∧ score < 85) ∧
    (recommendation score = .excellent ↔ 85 ≤ score) := by
  unfold recommendation
  split_ifs with h1 h2
  · exact ⟨⟨fun _ => h1, fun _ => rfl⟩,
      ⟨fun hx => absurd hx (by decide), fun hc => absurd h1 (not_lt.mpr hc.1)⟩,
      ⟨fun hx => absurd hx (by decide), fun hc => absurd h1 (not_lt.mpr (by linarith))⟩⟩
  · exact ⟨⟨fun hx => absurd hx (by decide), fun hc => absurd hc h1⟩,
      ⟨fun _ => ⟨not_lt.mp h1, h2⟩, fun _ => rfl⟩,
      ⟨fun hx => absurd hx (by decide), fun hc => absurd h2 (not_lt.mpr hc)⟩⟩
  · exact ⟨⟨fun hx => absurd hx (by decide), fun hc => absurd hc h1⟩,
      ⟨fun hx => absurd hx (by decide), fun hc => absurd hc.2 h2⟩,
      ⟨fun _ => not_lt.mp h2, fun _ => rfl⟩⟩

/-! ## Claim C6: the window-match predicate -/

/-- C6 counterexample.  The claim predicts that with an empty title filter
every visible window matches, including one with an empty title; the code's
`find_target_windows` excludes a visible window whose title is empty even
under the empty filter, so the claimed equivalence fails on that window. -/
theorem C6_counterexample :
    ¬ (((0, "") ∈ find_target_windows [⟨0, true, "", false⟩] "") ↔
        (("" : String) = "" ∨ containsSub (lowerStr "") "" = true)) := by
  decide

/-- C6 amended.  A window produced by the enumeration matches iff its
callback did not raise, it is visible, its title is non-empty, and the
filter is empty or occurs case-insensitively in the title — i.e. windows
with empty titles are always excluded, also under the empty filter. -/
theorem C6_window_match (wins : List Win) (filt : String) (h : Nat) (t : String) :
    (h, t) ∈ find_target_windows wins filt ↔
      ∃ w ∈ wins, w.raises = false ∧ w.visible = true ∧ w.title ≠ "" ∧
        (filt = "" ∨ containsSub (lowerStr w.title) filt = true) ∧
        w.hwnd = h ∧ w.title = t := by
  unfold find_target_windows
  rw [List.mem_filterMap]
  constructor
  · rintro ⟨w, hw, heq⟩
    by_cases hr : w.raises = true
    · rw [if_pos hr] at heq
      cases heq
    · rw [if_neg hr] at heq
      split at heq
      · rename_i hc
        obtain ⟨hh, htt⟩ : w.hwnd = h ∧ w.title = t := by
          simpa [Prod.ext_iff] using heq
        simp only [Bool.and_eq_true, Bool.or_eq_true, decide_eq_true_eq] at hc
        exact ⟨w, hw, by simpa using hr, hc.1, hc.2.1, hc.2.2, hh, htt⟩
      · cases heq
  · rintro ⟨w, hw, hr, hv, ht, hor, hh, htt⟩
    refine ⟨w, hw, ?_⟩
    have hc : (w.visible && (decide (w.title ≠ "") &&
        (decide (filt = "") || containsSub (lowerStr w.title) filt))) = true := by
      simp only [Bool.and_eq_true, Bool.or_eq_true, decide_eq_true_eq]
      exact ⟨hv, ht, hor⟩
    rw [if_neg (by simp [hr] : ¬ w.raises = true), if_pos hc, hh, htt]

/-! ## Claim C2: exception handling at the probe boundary -/

/-- C2 counterexample.  The claim asserts that a platform exception during a
probe yields a result at severity `medium`; the screen-capture probe's
handler instead uses severity `low`, so at the concrete exception text
`"boom"` the claim fails. -/
theorem C2_counterexample :
    (test_screen_capture_protection (Except.error "boom") "t").passed = true ∧
    (test_screen_capture_protection (Except.error "boom") "t").severity ≠ Severity.medium := by
  constructor
  · rfl
  · decide

/-- C2 amended.  Every probe-boundary exception handler converts the
exception into a single passing result carrying the error text in its
details; the external-command probes (tasklist, WMIC, PowerShell) do so at
severity `medium`, while the screen-capture probe does so at severity
`low`. -/
theorem C2_exception_to_pass (cfg : Config) (e ts : String) :
    ((test_tasklist_detection cfg (.error e) ts).passed = true ∧
      (test_tasklist_detection cfg (.error e) ts).severity = .medium ∧
      strMentions e (test_tasklist_detection cfg (.error e) ts).details) ∧
    ((test_wmic_detection cfg (.error e) ts).passed = true ∧
      (test_wmic_detection cfg (.error e) ts).severity = .medium ∧
      strMentions e (test_wmic_detection cfg (.error e) ts).details) ∧
    ((test_powershell_detection cfg (.error e) ts).passed = true ∧
      (test_powershell_detection cfg (.error e) ts).severity = .medium ∧
      strMentions e (test_powershell_detection cfg (.error e) ts).details) ∧
    ((test_screen_capture_protection (.error e) ts).passed = true ∧
      (test_screen_capture_protection (.error e) ts).severity = .low ∧
      strMentions e (test_screen_capture_protection (.error e) ts).details) := by
  refine ⟨⟨rfl, rfl, ?_⟩, ⟨rfl, rfl, ?_⟩, ⟨rfl, rfl, ?_⟩, ⟨rfl, rfl, ?_⟩⟩
  · exact ⟨"TaskList test failed: ".data, [],
      by simp [test_tasklist_detection, String.data_append]⟩
  · exact ⟨"WMIC test failed: ".data, [],
      by simp [test_wmic_detection, String.data_append]⟩
  · exact ⟨"PowerShell test failed: ".data, [],
      by simp [test_powershell_detection, String.data_append]⟩
  · exact ⟨"Screenshot failed: ".data, " (DRM protection likely working)".data,
      by simp [test_screen_capture_protection, String.data_append]⟩

/-! ## Claim C3: absent targets are passing, low-severity results -/

/-- C3.  Every probe whose required input list is empty reports a passing
result with an explanatory detail string at the lowest severity: the two
resolver probes when their resolution is empty, and the nine
snapshot-consuming probes when the stored target list is empty. -/
theorem C3_absent_target_passes (cfg : Config) (st : RunState) (env : Env) (ts : String)
    (hp : find_target_processes env.procIter cfg.process_name = [])
    (hw : find_target_windows env.windows cfg.window_title = []) :
    (test_psutil_detection cfg st env ts).results =
      st.results ++ [⟨"PSUtil Process Detection", true, "No processes detected by psutil", .low, ts⟩] ∧
    (test_window_enumeration cfg st env ts).results =
      st.results ++ [⟨"Win32 Window Enumeration", true, "No windows detected by EnumWindows", .low, ts⟩] ∧
    test_taskbar_presence [] env ts =
      ⟨"Taskbar Presence", true, "No windows to test taskbar presence", .low, ts⟩ ∧
    test_alt_tab_visibility [] env ts =
      ⟨"Alt+Tab Visibility", true, "No windows to test Alt+Tab visibility", .low, ts⟩ ∧
    test_process_tree [] ts =
      ⟨"Process Tree Analysis", true, "No processes to analyze", .low, ts⟩ ∧
    test_network_connections [] ts =
      ⟨"Network Connections", true, "No processes to test network connections", .low, ts⟩ ∧
    test_memory_usage [] ts =
      ⟨"Memory Usage", true, "No processes to test memory usage", .low, ts⟩ ∧
    test_cpu_usage [] ts =
      ⟨"CPU Usage", true, "No processes to test CPU usage", .low, ts⟩ ∧
    test_process_injection_resistance [] ts =
      ⟨"Process Injection Resistance", true, "No processes to test injection resistance", .low, ts⟩ ∧
    test_debugging_protection [] ts =
      ⟨"Anti-Debugging Protection", true, "No processes to test debugging protection", .low, ts⟩ ∧
    test_process_name_legitimacy [] ts =
      ⟨"Process Name Legitimacy", true, "No processes to test name legitimacy", .low, ts⟩ := by
  refine ⟨?_, ?_, rfl, rfl, rfl, rfl, rfl, rfl, rfl, rfl, rfl⟩
  · simp [test_psutil_detection, hp, addResult]
  · simp [test_window_enumeration, hw, addResult]

/-- A platform environment with no processes, no windows, and every external
call failing; used to instantiate hypothesis-bearing theorems. -/
def envEmpty : Env :=
  ⟨[], [], .error "no tasklist", .error "no wmic", .error "no powershell",
    .error "no mss", fun _ => .error (), fun _ => .error (), fun _ => .error (),
    fun _ => "t0"⟩

/-- Witness for C3 at a concrete empty environment. -/
theorem C3_absent_target_passes_witness :
    (test_psutil_detection (initConfig "ghost" "") initState envEmpty "t0").results =
      [⟨"PSUtil Process Detection", true, "No processes detected by psutil", .low, "t0"⟩] ∧
    test_memory_usage [] "t0" =
      ⟨"Memory Usage", true, "No processes to test memory usage", .low, "t0"⟩ := by
  have h := C3_absent_target_passes (initConfig "ghost" "") initState envEmpty "t0" rfl rfl
  exact ⟨by simpa [initState] using h.1, h.2.2.2.2.2.2.1⟩

/-! ## Claim C5: when the target snapshot is captured -/

theorem addResult_target_processes (st : RunState) (r : TestResult) :
    (addResult st r).target_processes = st.target_processes := rfl

theorem addResult_target_windows (st : RunState) (r : TestResult) :
    (addResult st r).target_windows = st.target_windows := rfl

theorem psutil_target_windows (cfg : Config) (st : RunState) (env : Env) (ts : String) :
    (test_psutil_detection cfg st env ts).target_windows = st.target_windows := by
  by_cases h : (find_target_processes env.procIter cfg.process_name).isEmpty <;>
    simp [test_psutil_detection, addResult, h]

theorem psutil_target_processes (cfg : Config) (st : RunState) (env : Env) (ts : String) :
    (test_psutil_detection cfg st env ts).target_processes =
      (if (find_target_processes env.procIter cfg.process_name).isEmpty
       then st.target_processes else find_target_processes env.procIter cfg.process_name) := by
  by_cases h : (find_target_processes env.procIter cfg.process_name).isEmpty <;>
    simp [test_psutil_detection, addResult, h]

theorem wenum_target_processes (cfg : Config) (st : RunState) (env : Env) (ts : String) :
    (test_window_enumeration cfg st env ts).target_processes = st.target_processes := by
  by_cases h : (find_target_windows env.windows cfg.window_title).isEmpty <;>
    simp [test_window_enumeration, addResult, h]

theorem wenum_target_windows (cfg : Config) (st : RunState) (env : Env) (ts : String) :
    (test_window_enumeration cfg st env ts).target_windows =
      (if (find_target_windows env.windows cfg.window_title).isEmpty
       then st.target_windows else find_target_windows env.windows cfg.window_title) := by
  by_cases h : (find_target_windows env.windows cfg.window_title).isEmpty <;>
    simp [test_window_enumeration, addResult, h]

/-- A process whose name the enumeration can read but every later platform
call on it is denied. -/
def procGhost : Proc :=
  ⟨1, .ok "evil.exe", .error .accessDenied, .error .accessDenied, .error .accessDenied,
    .error .accessDenied, fun _ => .error .accessDenied, false, false, false⟩

/-- The empty environment with one running process. -/
def envC5 : Env := { envEmpty with procIter := [procGhost] }

/-- C5 counterexample.  The claim says the snapshot is captured before any
probe runs and is read-only thereafter, so the target-process list at the
end of a run would equal the one at run start; in the concrete environment
with one matching process the first probe assigns the list during the run,
and the final list differs from the initial (empty) one. -/
theorem C5_counterexample :
    ¬ ((run_all_tests ⟨"evil", ""⟩ envC5).target_processes.length =
        initState.target_processes.length) := by
  decide

/-- C5 amended.  The matched-process list is assigned by the first probe
(psutil detection) and the matched-window list by the fifth probe (window
enumeration) — during the run, not before it — and afterwards both lists
always equal the resolver outputs: no other probe modifies them. -/
theorem C5_snapshot_set_by_probes (cfg : Config) (env : Env) :
    (run_all_tests cfg env).target_processes =
      find_target_processes env.procIter cfg.process_name ∧
    (run_all_tests cfg env).target_windows =
      find_target_windows env.windows cfg.window_title := by
  unfold run_all_tests
  constructor
  · simp only [addResult_target_processes, wenum_target_processes, psutil_target_processes]
    by_cases h : (find_target_processes env.procIter cfg.process_name).isEmpty
    · simp [h, List.isEmpty_iff.mp h, initState]
    · simp [h]
  · simp only [addResult_target_windows, wenum_target_windows, psutil_target_windows]
    by_cases h : (find_target_windows env.windows cfg.window_title).isEmpty
    · simp [h, List.isEmpty_iff.mp h, initState]
    · simp [h]

/-! ## Claim C7: the CPU-usage verdict -/

/-- C7.  On every non-empty collected sample list the CPU probe fails at
severity `medium` exactly when the maximum sample exceeds 50, and its detail
string reports the arithmetic mean of the samples; in particular on the
samples `[10, 20, 30, 70, 15]` it fails (max 70 > 50) with mean 29.0. -/
theorem C7_cpu_threshold (samples : List ℚ) (ts : String) (h : samples ≠ []) :
    ((cpuVerdict samples ts).passed = false ∧ (cpuVerdict samples ts).severity = .medium
        ↔ pyMax samples > 50) ∧
    strMentions (fmt1 (samples.sum / (samples.length : ℚ))) (cpuVerdict samples ts).details ∧
    (cpuVerdict [10, 20, 30, 70, 15] ts).passed = false ∧
    (cpuVerdict [10, 20, 30, 70, 15] ts).severity = .medium ∧
    ([10, 20, 30, 70, 15] : List ℚ).sum / (([10, 20, 30, 70, 15] : List ℚ).length : ℚ) = 29 ∧
    strMentions "29.0" (cpuVerdict [10, 20, 30, 70, 15] ts).details := by
  have hne' : ¬ (samples.isEmpty = true) := by simp [h]
  have hmax : pyMax ([10, 20, 30, 70, 15] : List ℚ) = 70 := by
    norm_num [pyMax, List.foldl]
  have h70 : pyMax ([10, 20, 30, 70, 15] : List ℚ) > 50 := by rw [hmax]; norm_num
  have havg : ([10, 20, 30, 70, 15] : List ℚ).sum / (([10, 20, 30, 70, 15] : List ℚ).length : ℚ)
      = 29 := by norm_num [List.sum_cons]
  have hred : cpuVerdict ([10, 20, 30, 70, 15] : List ℚ) ts =
      ⟨"CPU Usage", false,
        "High CPU usage detected: avg=" ++
          fmt1 (([10, 20, 30, 70, 15] : List ℚ).sum / (([10, 20, 30, 70, 15] : List ℚ).length : ℚ))
          ++ "%, max=" ++ fmt1 (pyMax [10, 20, 30, 70, 15]) ++ "%", .medium, ts⟩ := by
    simp only [cpuVerdict]
    rw [if_neg (by simp), if_pos h70]
  have f29 : fmt1 (29 : ℚ) = "29.0" := by decide
  have f70 : fmt1 (70 : ℚ) = "70.0" := by decide
  refine ⟨?_, ?_, ?_, ?_, havg, ?_⟩
  · by_cases hm : pyMax samples > 50
    · simp only [cpuVerdict]
      rw [if_neg hne', if_pos hm]
      simpa using hm
    · simp only [cpuVerdict]
      rw [if_neg hne', if_neg hm]
      simpa using hm
  · by_cases hm : pyMax samples > 50
    · simp only [cpuVerdict]
      rw [if_neg hne', if_pos hm]
      exact ⟨"High CPU usage detected: avg=".data,
        ("%, max=" ++ fmt1 (pyMax samples) ++ "%").data, by simp [String.data_append]⟩
    · simp only [cpuVerdict]
      rw [if_neg hne', if_neg hm]
      exact ⟨"Normal CPU usage: avg=".data,
        ("%, max=" ++ fmt1 (pyMax samples) ++ "%").data, by simp [String.data_append]⟩
  · rw [hred]
  · rw [hred]
  · rw [hred, havg, hmax, f29, f70]
    exact ⟨"High CPU usage detected: avg=".data, ("%, max=" ++ "70.0" ++ "%").data,
      by simp [String.data_append]⟩

/-- Witness for C7 at the concrete synthetic sample list. -/
theorem C7_cpu_threshold_witness :
    (cpuVerdict [10, 20, 30, 70, 15] "t0").passed = false ∧
    (cpuVerdict [10, 20, 30, 70, 15] "t0").severity = .medium :=
  ⟨(C7_cpu_threshold [10, 20, 30, 70, 15] "t0" (by simp)).2.2.1,
   (C7_cpu_threshold [10, 20, 30, 70, 15] "t0" (by simp)).2.2.2.1⟩

/-! ## Claim C8: the memory-usage verdict -/

/-- The flag the memory probe's loop body produces for one process: the
formatted entry when the resident size exceeds 500 MB and both platform
calls succeed, nothing otherwise. -/
def memFlag (p : Proc) : Option String :=
  match p.rss with
  | .error _ => none
  | .ok rss =>
    let memory_mb := rss / 1024 / 1024
    if 500 < memory_mb then
      match p.name with
      | .error _ => none
      | .ok n => some (n ++ ": " ++ fmt1 memory_mb ++ "MB")
    else none

theorem memStep_snd (acc : ℚ × List String) (p : Proc) :
    (memStep acc p).2 = acc.2 ++ (memFlag p).toList := by
  rcases hr : p.rss with e | q
  · simp [memStep, memFlag, hr]
  · rcases hn : p.name with e | n
    · simp [memStep, memFlag, hr, hn]
    · simp only [memStep, memFlag, hr, hn]
      split_ifs with hc <;> simp

theorem foldl_memStep_snd (procs : List Proc) (acc : ℚ × List String) :
    (procs.foldl memStep acc).2 = acc.2 ++ procs.filterMap memFlag := by
  induction procs generalizing acc with
  | nil => simp
  | cons p ps ih =>
    rw [List.foldl_cons, ih, memStep_snd]
    cases hp : memFlag p <;> simp [List.filterMap_cons, hp]

/-- A process reporting 600 MB of resident memory. -/
def proc600 : Proc :=
  ⟨2, .ok "drm_app.exe", .ok "drm_app.exe", .error .accessDenied, .error .accessDenied,
    .ok (600 * 1024 * 1024), fun _ => .error .accessDenied, false, false, false⟩

/-- C8.  When every stored process's `memory_info` and `name` calls succeed,
the memory probe fails at severity `medium` exactly when some process's
resident memory exceeds 500 MB, and its detail string names each such
process with its size in MB; in particular for a synthetic 600 MB process
it fails at `medium` with a detail mentioning the process and 600.0 MB. -/
theorem C8_memory_threshold (procs : List Proc) (ts : String) (hne : procs ≠ [])
    (hok : ∀ p ∈ procs, (∃ q, p.rss = .ok q) ∧ (∃ n, p.name = .ok n)) :
    ((test_memory_usage procs ts).passed = false ∧
        (test_memory_usage procs ts).severity = .medium
      ↔ ∃ p ∈ procs, ∃ q, p.rss = .ok q ∧ 500 < q / 1024 / 1024) ∧
    (∀ p ∈ procs, ∀ q n, p.rss = .ok q → p.name = .ok n → 500 < q / 1024 / 1024 →
      strMentions (n ++ ": " ++ fmt1 (q / 1024 / 1024) ++ "MB")
        (test_memory_usage procs ts).details) ∧
    (test_memory_usage [proc600] ts).passed = false ∧
    (test_memory_usage [proc600] ts).severity = .medium ∧
    strMentions "drm_app.exe: 600.0MB" (test_memory_usage [proc600] ts).details := by
  have hsnd : (procs.foldl memStep (0, [])).2 = procs.filterMap memFlag := by
    rw [foldl_memStep_snd]
    rfl
  have hiff : (procs.filterMap memFlag = []) ↔
      ¬ ∃ p ∈ procs, ∃ q, p.rss = .ok q ∧ 500 < q / 1024 / 1024 := by
    rw [List.filterMap_eq_nil_iff]
    constructor
    · rintro hall ⟨p, hp, q, hq, hgt⟩
      obtain ⟨_, n, hn⟩ := hok p hp
      have hthis := hall p hp
      simp only [memFlag, hq, hn] at hthis
      rw [if_pos hgt] at hthis
      cases hthis
    · intro hnex p hp
      rcases hr : p.rss with e | q
      · simp [memFlag, hr]
      · rcases hn : p.name with e | n
        · simp [memFlag, hr, hn]
        · simp only [memFlag, hr, hn]
          rw [if_neg]
          exact fun hgt => hnex ⟨p, hp, q, hr, hgt⟩
  -- the concrete 600 MB process
  have hmb : ((600 * 1024 * 1024 : ℚ) / 1024 / 1024) = 600 := by norm_num
  have hflagopt : memFlag proc600 = some "drm_app.exe: 600.0MB" := by
    simp only [memFlag, proc600]
    rw [if_pos (by rw [hmb]; norm_num), hmb]
    decide
  have hflag : ([proc600].foldl memStep (0, [])).2 = ["drm_app.exe: 600.0MB"] := by
    rw [foldl_memStep_snd]
    simp [hflagopt]
  have hres600 : test_memory_usage [proc600] ts =
      ⟨"Memory Usage", false,
        "High memory usage detected: " ++ pyStrList ["drm_app.exe: 600.0MB"], .medium, ts⟩ := by
    simp only [test_memory_usage]
    rw [if_neg (by simp), hflag, if_neg (by simp)]
  refine ⟨?_, ?_, ?_, ?_, ?_⟩
  · by_cases hfl : (procs.filterMap memFlag).isEmpty = true
    · have hnil := List.isEmpty_iff.mp hfl
      have hres : test_memory_usage procs ts =
          ⟨"Memory Usage", true,
            "Normal memory usage: " ++ fmt1 (procs.foldl memStep (0, [])).1 ++ "MB total",
            .low, ts⟩ := by
        simp only [test_memory_usage]
        rw [if_neg (by simp [List.isEmpty_iff, hne]), hsnd, if_pos hfl]
      rw [hres]
      simp only [show (true = false) = False by simp, false_and, false_iff]
      exact hiff.mp hnil
    · have hres : test_memory_usage procs ts =
          ⟨"Memory Usage", false,
            "High memory usage detected: " ++ pyStrList (procs.filterMap memFlag),
            .medium, ts⟩ := by
        simp only [test_memory_usage]
        rw [if_neg (by simp [List.isEmpty_iff, hne]), hsnd, if_neg hfl]
      rw [hres]
      simp only [true_and, true_iff]
      have hnn : procs.filterMap memFlag ≠ [] := by simpa [List.isEmpty_iff] using hfl
      exact not_not.mp ((not_congr hiff).mp hnn)
  · intro p hp q n hq hn hgt
    have hsome : memFlag p = some (n ++ ": " ++ fmt1 (q / 1024 / 1024) ++ "MB") := by
      simp only [memFlag, hq, hn]
      rw [if_pos hgt]
    have hmem : (n ++ ": " ++ fmt1 (q / 1024 / 1024) ++ "MB") ∈ procs.filterMap memFlag :=
      List.mem_filterMap.mpr ⟨p, hp, hsome⟩
    have hflne : ¬ (procs.filterMap memFlag).isEmpty = true := by
      rw [List.isEmpty_iff]
      exact List.ne_nil_of_mem hmem
    have hres : test_memory_usage procs ts =
        ⟨"Memory Usage", false,
          "High memory usage detected: " ++ pyStrList (procs.filterMap memFlag),
          .medium, ts⟩ := by
      simp only [test_memory_usage]
      rw [if_neg (by simp [List.isEmpty_iff, hne]), hsnd, if_neg hflne]
    rw [hres]
    exact strMentions_pyStrList "High memory usage detected: " hmem
  · rw [hres600]
  · rw [hres600]
  · rw [hres600]
    exact strMentions_pyStrList "High memory usage detected: "
      (List.mem_singleton.mpr rfl)

/-- Witness for C8 at the concrete 600 MB process. -/
theorem C8_memory_threshold_witness :
    (test_memory_usage [proc600] "t0").passed = false ∧
    (test_memory_usage [proc600] "t0").severity = .medium :=
  ⟨(C8_memory_threshold [proc600] "t0" (by simp)
      (by rintro p hp; rw [List.mem_singleton.mp hp]
          exact ⟨⟨600 * 1024 * 1024, rfl⟩, "drm_app.exe", rfl⟩)).2.2.1,
   (C8_memory_threshold [proc600] "t0" (by simp)
      (by rintro p hp; rw [List.mem_singleton.mp hp]
          exact ⟨⟨600 * 1024 * 1024, rfl⟩, "drm_app.exe", rfl⟩)).2.2.2.1⟩

/-! ## Claim C4: shape and arithmetic of the persisted report -/

/-- C4.  In every persisted report, `passed_tests` plus the number of
failing results equals `total_tests`; the four severity counts of the
summary sum to the number of failing results; and the document carries the
run metadata, the ordered result list, and the derived counts exactly as
built by `save_detailed_report`. -/
theorem C4_report_consistency (ts : String) (cfg : Config) (plat : String)
    (results : List TestResult) :
    (save_detailed_report ts cfg plat results).passed_tests +
        (results.filter fun r => !r.passed).length =
      (save_detailed_report ts cfg plat results).total_tests ∧
    (save_detailed_report ts cfg plat results).summary.critical_issues +
        (save_detailed_report ts cfg plat results).summary.high_issues +
        (save_detailed_report ts cfg plat results).summary.medium_issues +
        (save_detailed_report ts cfg plat results).summary.low_issues =
      (results.filter fun r => !r.passed).length ∧
    (save_detailed_report ts cfg plat results).test_results = results ∧
    (save_detailed_report ts cfg plat results).total_tests = results.length ∧
    (save_detailed_report ts cfg plat results).passed_tests = passedCount results ∧
    (save_detailed_report ts cfg plat results).score_percentage = score_percentage results ∧
    (save_detailed_report ts cfg plat results).timestamp = ts ∧
    (save_detailed_report ts cfg plat results).target_process = cfg.process_name ∧
    (save_detailed_report ts cfg plat results).target_window = cfg.window_title ∧
    (save_detailed_report ts cfg plat results).platform = plat := by
  refine ⟨?_, ?_, rfl, rfl, rfl, rfl, rfl, rfl, rfl, rfl⟩
  · exact length_filter_passed_add_not results
  · exact severity_partition results

/-! ## Claim C10: no failing result is ever low-severity -/

/-- A result is acceptable for C10: passing, or at a severity above low. -/
def sevOk (r : TestResult) : Bool := r.passed || decide (r.severity ≠ Severity.low)

theorem all_sevOk_addResult {st : RunState} {r : TestResult}
    (hst : st.results.all sevOk = true) (hr : sevOk r = true) :
    (addResult st r).results.all sevOk = true := by
  simp [addResult, List.all_append, hst, hr]

theorem sevOk_psutil_results (cfg : Config) (st : RunState) (env : Env) (ts : String)
    (hst : st.results.all sevOk = true) :
    (test_psutil_detection cfg st env ts).results.all sevOk = true := by
  by_cases h : (find_target_processes env.procIter cfg.process_name).isEmpty <;>
    simp [test_psutil_detection, addResult, h, List.all_append, hst, sevOk]

theorem sevOk_wenum_results (cfg : Config) (st : RunState) (env : Env) (ts : String)
    (hst : st.results.all sevOk = true) :
    (test_window_enumeration cfg st env ts).results.all sevOk = true := by
  by_cases h : (find_target_windows env.windows cfg.window_title).isEmpty <;>
    simp [test_window_enumeration, addResult, h, List.all_append, hst, sevOk]

theorem sevOk_tasklist (cfg : Config) (cmd : Except String CmdResult) (ts : String) :
    sevOk (test_tasklist_detection cfg cmd ts) = true := by
  rcases cmd with e | r
  · rfl
  · simp only [test_tasklist_detection]
    split_ifs <;> rfl

theorem sevOk_wmic (cfg : Config) (cmd : Except String CmdResult) (ts : String) :
    sevOk (test_wmic_detection cfg cmd ts) = true := by
  rcases cmd with e | r
  · rfl
  · simp only [test_wmic_detection]
    split_ifs <;> rfl

theorem sevOk_powershell (cfg : Config) (cmd : Except String CmdResult) (ts : String) :
    sevOk (test_powershell_detection cfg cmd ts) = true := by
  rcases cmd with e | r
  · rfl
  · simp only [test_powershell_detection]
    split_ifs <;> rfl

theorem sevOk_taskbar (tw : List (Nat × String)) (env : Env) (ts : String) :
    sevOk (test_taskbar_presence tw env ts) = true := by
  simp only [test_taskbar_presence]
  split_ifs <;> rfl

theorem sevOk_alttab (tw : List (Nat × String)) (env : Env) (ts : String) :
    sevOk (test_alt_tab_visibility tw env ts) = true := by
  simp only [test_alt_tab_visibility]
  split_ifs <;> rfl

theorem sevOk_tree (tp : List Proc) (ts : String) :
    sevOk (test_process_tree tp ts) = true := by
  simp only [test_process_tree]
  split_ifs <;> rfl

theorem sevOk_network (tp : List Proc) (ts : String) :
    sevOk (test_network_connections tp ts) = true := by
  simp only [test_network_connections]
  split_ifs <;> rfl

theorem sevOk_memory (tp : List Proc) (ts : String) :
    sevOk (test_memory_usage tp ts) = true := by
  simp only [test_memory_usage]
  split_ifs <;> rfl

theorem sevOk_cpu (tp : List Proc) (ts : String) :
    sevOk (test_cpu_usage tp ts) = true := by
  simp only [test_cpu_usage, cpuVerdict]
  split_ifs <;> rfl

theorem sevOk_capture (capture : Except String Capture) (ts : String) :
    sevOk (test_screen_capture_protection capture ts) = true := by
  rcases capture with e | cap
  · rfl
  · simp only [test_screen_capture_protection]
    split_ifs <;> rfl

theorem sevOk_injection (tp : List Proc) (ts : String) :
    sevOk (test_process_injection_resistance tp ts) = true := by
  simp only [test_process_injection_resistance]
  split_ifs <;> rfl

theorem sevOk_debug (tp : List Proc) (ts : String) :
    sevOk (test_debugging_protection tp ts) = true := by
  simp only [test_debugging_protection]
  split_ifs <;> rfl

theorem sevOk_legitimacy (tp : List Proc) (ts : String) :
    sevOk (test_process_name_legitimacy tp ts) = true := by
  simp only [test_process_name_legitimacy]
  split_ifs <;> rfl

theorem failsOf_low_eq_nil {rs : List TestResult} (h : rs.all sevOk = true) :
    failsOf rs .low = [] := by
  induction rs with
  | nil => rfl
  | cons r rest ih =>
    rw [List.all_cons, Bool.and_eq_true] at h
    have hr := h.1
    cases hp : r.passed
    · cases hs : r.severity <;>
        simp_all [sevOk, failsOf, List.filter_cons, hp, hs]
    · simp_all [sevOk, failsOf, List.filter_cons, hp]

/-- C10.  In every run, no probe produces a failing result at severity
`low`: every result is passing or above low severity, hence the persisted
summary's `low_issues` count is 0 and the three console buckets (critical,
high, medium) together cover every failing result. -/
theorem C10_no_low_severity_failures (cfg : Config) (env : Env) (ts : String) (plat : String) :
    (run_all_tests cfg env).results.all sevOk = true ∧
    (save_detailed_report ts cfg plat (run_all_tests cfg env).results).summary.low_issues = 0 ∧
    (failsOf (run_all_tests cfg env).results .critical).length +
        (failsOf (run_all_tests cfg env).results .high).length +
        (failsOf (run_all_tests cfg env).results .medium).length =
      ((run_all_tests cfg env).results.filter fun r => !r.passed).length := by
  have hall : (run_all_tests cfg env).results.all sevOk = true := by
    unfold run_all_tests
    apply all_sevOk_addResult ?_ (sevOk_legitimacy _ _)
    apply all_sevOk_addResult ?_ (sevOk_debug _ _)
    apply all_sevOk_addResult ?_ (sevOk_injection _ _)
    apply all_sevOk_addResult ?_ (sevOk_capture _ _)
    apply all_sevOk_addResult ?_ (sevOk_cpu _ _)
    apply all_sevOk_addResult ?_ (sevOk_memory _ _)
    apply all_sevOk_addResult ?_ (sevOk_network _ _)
    apply all_sevOk_addResult ?_ (sevOk_tree _ _)
    apply all_sevOk_addResult ?_ (sevOk_alttab _ _ _)
    apply all_sevOk_addResult ?_ (sevOk_taskbar _ _ _)
    apply sevOk_wenum_results
    apply all_sevOk_addResult ?_ (sevOk_powershell _ _ _)
    apply all_sevOk_addResult ?_ (sevOk_wmic _ _ _)
    apply all_sevOk_addResult ?_ (sevOk_tasklist _ _ _)
    apply sevOk_psutil_results
    rfl
  have h0 : (failsOf (run_all_tests cfg env).results .low).length = 0 := by
    rw [failsOf_low_eq_nil hall]
    rfl
  have hpart := severity_partition (run_all_tests cfg env).results
  exact ⟨hall, h0, by omega⟩

end StealthTester
